import Mathlib

/-!
Shallow embedding of `gaussian_splatting_St_v14.py`, a Streamlit viewer for
PLY point clouds.  The two functions worth verifying are the loader
(`load_ply_file`) and the visualization builder
(`create_gaussian_splatting_visualization`).  Coordinates and color channels
are modelled by rationals (the Python floats carry exact values in every
scenario considered here), sequences by lists, and fallible operations by
`Option`/`Except` together with an explicit environment recording the
behaviour of the external decoder and of the temporary-file write.
-/

namespace GaussianSplat

/-- A 3D point, one row of the numpy `points` array. -/
structure Point3 where
  x : ℚ
  y : ℚ
  z : ℚ
deriving DecidableEq

/-- An RGB triple with channels in [0,1], one row of the numpy `colors` array. -/
structure Color3 where
  r : ℚ
  g : ℚ
  b : ℚ
deriving DecidableEq

/-- Python `int(q)`: truncation toward zero (floor for nonnegative values,
ceiling for negative ones). -/
def py_int (q : ℚ) : ℤ :=
  if 0 ≤ q then ⌊q⌋ else ⌈q⌉

/-- One channel of the color conversion at line 74 of the source:
`int(c*255)`. -/
def channel_int (c : ℚ) : ℤ :=
  py_int (c * 255)

/-- The per-point Plotly color string built at line 74:
`f'rgb(\x7bint(r*255)\x7d,...)'`. -/
def color_hex_entry (c : Color3) : String :=
  "rgb(" ++ toString (channel_int c.r) ++ "," ++ toString (channel_int c.g)
    ++ "," ++ toString (channel_int c.b) ++ ")"

/-- The decoded Open3D point cloud as seen through `pcd.points`,
`pcd.colors` / `pcd.has_colors()`, `pcd.normals` / `pcd.has_normals()`.
`colors = none` models `has_colors() = False`; likewise for normals. -/
structure PointCloud where
  points : List Point3
  colors : Option (List Color3)
  normals : Option (List Point3)
deriving DecidableEq

/-- The dictionary returned by `load_ply_file` (lines 58-63): points, colors
(always present, synthesized gray when the cloud has none), optional normals
and the retained decoded handle (`pcd`, `none` for the sample data built in
the no-upload branch). -/
structure PointCloudRecord where
  points : List Point3
  colors : List Color3
  normals : Option (List Point3)
  pcd : Option PointCloud
deriving DecidableEq

/-- Lines 43-63 of `load_ply_file`: extraction of the record from a decoded
cloud.  When `pcd.has_colors()` is false the code sets
`colors = np.ones((len(points), 3)) * 0.5`, i.e. one mid-gray triple per
point; when `has_normals()` is false, `normals = None`. -/
def mkRecord (pc : PointCloud) : PointCloudRecord :=
  { points := pc.points
    colors :=
      match pc.colors with
      | some cs => cs
      | none => List.replicate pc.points.length ⟨1 * (1/2), 1 * (1/2), 1 * (1/2)⟩
    normals :=
      match pc.normals with
      | some ns => some ns
      | none => none
    pcd := some pc }

/-- Environment of one call to `load_ply_file`: whether
`tmp_file.write(file_bytes)` raises (an OS error, e.g. disk full), and what
`o3d.io.read_point_cloud` yields on the written bytes (`Except.error ()`
models the decoder raising). -/
structure LoadEnv where
  writeRaises : Bool
  decoded : Except Unit PointCloud

/-- The failure modes that can propagate out of `load_ply_file`. -/
inductive LoadError
  | writeError
  | decodeError
deriving DecidableEq

/-- Lines 32-66, `load_ply_file`.  The result pairs the outcome with a flag
telling whether the temporary file is still on disk after the call returns
or propagates.  Control flow of the source: `NamedTemporaryFile(suffix='.ply',
delete=False)` creates the file; `tmp_file.write(file_bytes)` runs inside the
`with` block but BEFORE the `try`, so if the write raises, the `finally:
os.unlink(tmp_filename)` is never entered and the file persists.  Once the
`try` block is reached, `os.unlink` runs on both the decode-success and the
decode-failure path. -/
def load_ply_file (env : LoadEnv) : Except LoadError PointCloudRecord × Bool :=
  if env.writeRaises then
    (Except.error LoadError.writeError, true)
  else
    match env.decoded with
    | Except.error _ => (Except.error LoadError.decodeError, false)
    | Except.ok pc => (Except.ok (mkRecord pc), false)

/-- Line 96: `x_range = [points[:, 0].min(), points[:, 0].max()]`, for a
non-empty array presented as head `p` and tail `ps`. -/
def x_range (p : Point3) (ps : List Point3) : ℚ × ℚ :=
  (ps.foldl (fun m q => min m q.x) p.x, ps.foldl (fun m q => max m q.x) p.x)

/-- Line 97: `y_range = [points[:, 1].min(), points[:, 1].max()]`. -/
def y_range (p : Point3) (ps : List Point3) : ℚ × ℚ :=
  (ps.foldl (fun m q => min m q.y) p.y, ps.foldl (fun m q => max m q.y) p.y)

/-- Line 98: `z_range = [points[:, 2].min(), points[:, 2].max()]`. -/
def z_range (p : Point3) (ps : List Point3) : ℚ × ℚ :=
  (ps.foldl (fun m q => min m q.z) p.z, ps.foldl (fun m q => max m q.z) p.z)

/-- Lines 100-104: `center`, the per-axis midpoint of the bounding box.
Computed by the source and then never used in the layout (the camera's
look-at center is hard-coded to the origin at line 123). -/
def center (p : Point3) (ps : List Point3) : ℚ × ℚ × ℚ :=
  (((x_range p ps).1 + (x_range p ps).2) / 2,
   ((y_range p ps).1 + (y_range p ps).2) / 2,
   ((z_range p ps).1 + (z_range p ps).2) / 2)

/-- Lines 106-110: `max_range = max(x span, y span, z span)`. -/
def max_range (p : Point3) (ps : List Point3) : ℚ :=
  max ((x_range p ps).2 - (x_range p ps).1)
    (max ((y_range p ps).2 - (y_range p ps).1)
      ((z_range p ps).2 - (z_range p ps).1))

/-- Line 112: `camera_dist = max_range * 2.5`. -/
def camera_dist (p : Point3) (ps : List Point3) : ℚ :=
  max_range p ps * (5 / 2)

/-- The Plotly figure produced by the builder: the `Scatter3d` trace
(lines 77-93) and the layout (lines 115-132). -/
structure SceneDescription where
  xs : List ℚ
  ys : List ℚ
  zs : List ℚ
  marker_size : ℚ
  marker_colors : List String
  marker_opacity : ℚ
  marker_line_width : ℚ
  hoverinfo : String
  xaxis_visible : Bool
  yaxis_visible : Bool
  zaxis_visible : Bool
  aspectmode : String
  camera_up : ℚ × ℚ × ℚ
  camera_center : ℚ × ℚ × ℚ
  camera_eye : ℚ × ℚ × ℚ
  bgcolor : String
  margin_l : ℕ
  margin_r : ℕ
  margin_b : ℕ
  margin_t : ℕ
  dragmode : String
  height : ℕ
  width : ℕ
deriving DecidableEq

/-- Lines 68-134, `create_gaussian_splatting_visualization`.  Reads only
`data['points']` and `data['colors']`; `splat_scale` is accepted but unused.
When the cloud is empty, `points[:, 0].min()` at line 96 raises a numpy
`ValueError` (reduction over a zero-size array), modelled by `none`. -/
def create_gaussian_splatting_visualization (data : PointCloudRecord)
    (point_size : ℚ) (splat_scale : ℚ) : Option SceneDescription :=
  match data.points with
  | [] => none
  | p :: ps =>
    some
      { xs := (p :: ps).map Point3.x
        ys := (p :: ps).map Point3.y
        zs := (p :: ps).map Point3.z
        marker_size := point_size
        marker_colors := data.colors.map color_hex_entry
        marker_opacity := 8 / 10
        marker_line_width := 0
        hoverinfo := "none"
        xaxis_visible := false
        yaxis_visible := false
        zaxis_visible := false
        aspectmode := "data"
        camera_up := (0, 0, 1)
        camera_center := (0, 0, 0)
        camera_eye := (camera_dist p ps, camera_dist p ps, camera_dist p ps / 2)
        bgcolor := "rgba(0,0,0,0)"
        margin_l := 0
        margin_r := 0
        margin_b := 0
        margin_t := 0
        dragmode := "orbit"
        height := 800
        width := 900 }

/-- Corners of the cube with extremes (0,0,0) and (10,10,10), the concrete
scenario of the spec. -/
def cube_points : List Point3 :=
  [⟨0, 0, 0⟩, ⟨10, 0, 0⟩, ⟨0, 10, 0⟩, ⟨0, 0, 10⟩,
   ⟨10, 10, 0⟩, ⟨10, 0, 10⟩, ⟨0, 10, 10⟩, ⟨10, 10, 10⟩]

/-- A record holding the cube point cloud. -/
def cube_record : PointCloudRecord :=
  ⟨cube_points, [], none, none⟩

/-- A decoded cloud with one point at (2,3,4) and no color channel. -/
def gray_cloud : PointCloud :=
  ⟨[⟨2, 3, 4⟩], none, none⟩

/-- A load environment where the write succeeds and the decoder yields
`gray_cloud`. -/
def gray_env : LoadEnv :=
  ⟨false, Except.ok gray_cloud⟩

/-- A decoded cloud carrying an explicit color channel. -/
def color_cloud : PointCloud :=
  ⟨[⟨1, 2, 3⟩], some [⟨1, 0, 0⟩], none⟩

/-- A load environment where the write succeeds and the decoder yields
`color_cloud`. -/
def color_env : LoadEnv :=
  ⟨false, Except.ok color_cloud⟩

/-- A load environment where `tmp_file.write` raises. -/
def write_fail_env : LoadEnv :=
  ⟨true, Except.error ()⟩

/-- A load environment where the write succeeds and the decoder raises. -/
def decode_fail_env : LoadEnv :=
  ⟨false, Except.error ()⟩

/-- A record with an empty point cloud. -/
def empty_record : PointCloudRecord :=
  ⟨[], [], none, none⟩

/-- A record with a single gray point at the origin. -/
def one_point_record : PointCloudRecord :=
  ⟨[⟨0, 0, 0⟩], [⟨1/2, 1/2, 1/2⟩], none, none⟩

/-- A record with no normals and no retained handle. -/
def record_a : PointCloudRecord :=
  ⟨[⟨1, 2, 3⟩], [⟨1, 0, 0⟩], none, none⟩

/-- A record agreeing with `record_a` on points and colors but carrying
normals and a retained handle. -/
def record_b : PointCloudRecord :=
  ⟨[⟨1, 2, 3⟩], [⟨1, 0, 0⟩], some [⟨0, 0, 1⟩], some ⟨[⟨1, 2, 3⟩], none, none⟩⟩

lemma foldl_min_le (f : Point3 → ℚ) (ps : List Point3) :
    ∀ a : ℚ, ps.foldl (fun m r => min m (f r)) a ≤ a ∧
      ∀ q ∈ ps, ps.foldl (fun m r => min m (f r)) a ≤ f q := by
  induction ps with
  | nil =>
    intro a
    exact ⟨le_refl a, by intro q hq; cases hq⟩
  | cons b t ih =>
    intro a
    simp only [List.foldl_cons]
    refine ⟨le_trans (ih (min a (f b))).1 (min_le_left _ _), ?_⟩
    intro q hq
    rcases List.mem_cons.mp hq with h | h
    · subst h
      exact le_trans (ih (min a (f q))).1 (min_le_right _ _)
    · exact (ih (min a (f b))).2 q h

lemma foldl_min_mem (f : Point3 → ℚ) (ps : List Point3) :
    ∀ a : ℚ, ps.foldl (fun m r => min m (f r)) a = a ∨
      ∃ q ∈ ps, ps.foldl (fun m r => min m (f r)) a = f q := by
  induction ps with
  | nil => intro a; left; rfl
  | cons b t ih =>
    intro a
    simp only [List.foldl_cons]
    rcases ih (min a (f b)) with h | ⟨q, hq, he⟩
    · rcases min_choice a (f b) with h2 | h2
      · left; rw [h, h2]
      · right; exact ⟨b, List.mem_cons_self _ _, by rw [h, h2]⟩
    · right; exact ⟨q, List.mem_cons_of_mem _ hq, he⟩

lemma le_foldl_max (f : Point3 → ℚ) (ps : List Point3) :
    ∀ a : ℚ, a ≤ ps.foldl (fun m r => max m (f r)) a ∧
      ∀ q ∈ ps, f q ≤ ps.foldl (fun m r => max m (f r)) a := by
  induction ps with
  | nil =>
    intro a
    exact ⟨le_refl a, by intro q hq; cases hq⟩
  | cons b t ih =>
    intro a
    simp only [List.foldl_cons]
    refine ⟨le_trans (le_max_left _ _) (ih (max a (f b))).1, ?_⟩
    intro q hq
    rcases List.mem_cons.mp hq with h | h
    · subst h
      exact le_trans (le_max_right _ _) (ih (max a (f q))).1
    · exact (ih (max a (f b))).2 q h

lemma foldl_max_mem (f : Point3 → ℚ) (ps : List Point3) :
    ∀ a : ℚ, ps.foldl (fun m r => max m (f r)) a = a ∨
      ∃ q ∈ ps, ps.foldl (fun m r => max m (f r)) a = f q := by
  induction ps with
  | nil => intro a; left; rfl
  | cons b t ih =>
    intro a
    simp only [List.foldl_cons]
    rcases ih (max a (f b)) with h | ⟨q, hq, he⟩
    · rcases max_choice a (f b) with h2 | h2
      · left; rw [h, h2]
      · right; exact ⟨b, List.mem_cons_self _ _, by rw [h, h2]⟩
    · right; exact ⟨q, List.mem_cons_of_mem _ hq, he⟩

/-- The per-axis foldl at the heart of `x_range`/`y_range`/`z_range` really
computes the observed minimum and maximum of `f` over a non-empty list. -/
lemma range_spec (f : Point3 → ℚ) (p : Point3) (ps : List Point3) :
    (∃ q ∈ p :: ps, ps.foldl (fun m r => min m (f r)) (f p) = f q) ∧
    (∀ q ∈ p :: ps, ps.foldl (fun m r => min m (f r)) (f p) ≤ f q) ∧
    (∃ q ∈ p :: ps, ps.foldl (fun m r => max m (f r)) (f p) = f q) ∧
    (∀ q ∈ p :: ps, f q ≤ ps.foldl (fun m r => max m (f r)) (f p)) := by
  refine ⟨?_, ?_, ?_, ?_⟩
  · rcases foldl_min_mem f ps (f p) with h | ⟨q, hq, he⟩
    · exact ⟨p, List.mem_cons_self _ _, h⟩
    · exact ⟨q, List.mem_cons_of_mem _ hq, he⟩
  · intro q hq
    rcases List.mem_cons.mp hq with h | h
    · subst h; exact (foldl_min_le f ps (f q)).1
    · exact (foldl_min_le f ps (f p)).2 q h
  · rcases foldl_max_mem f ps (f p) with h | ⟨q, hq, he⟩
    · exact ⟨p, List.mem_cons_self _ _, h⟩
    · exact ⟨q, List.mem_cons_of_mem _ hq, he⟩
  · intro q hq
    rcases List.mem_cons.mp hq with h | h
    · subst h; exact (le_foldl_max f ps (f q)).1
    · exact (le_foldl_max f ps (f p)).2 q h

/-- C1: for every non-empty point set the builder's `x_range`/`y_range`/
`z_range` are the observed per-axis minima and maxima, `center` is the
per-axis midpoint of the bounding box, `max_range` the largest axis span,
`camera_dist = max_range * 2.5`, and the emitted scene places the camera eye
at `(camera_dist, camera_dist, camera_dist/2)` with up vector `(0,0,1)` and
look-at target `(0,0,0)`; the cube with corners (0,0,0) and (10,10,10) yields
center (5,5,5), max_range 10, camera_dist 25 and eye (25,25,12.5). -/
theorem camera_framing_correct (rec : PointCloudRecord) (point_size splat_scale : ℚ)
    (p : Point3) (ps : List Point3) (h : rec.points = p :: ps) :
    ((∃ q ∈ p :: ps, (x_range p ps).1 = q.x) ∧
     (∀ q ∈ p :: ps, (x_range p ps).1 ≤ q.x) ∧
     (∃ q ∈ p :: ps, (x_range p ps).2 = q.x) ∧
     (∀ q ∈ p :: ps, q.x ≤ (x_range p ps).2) ∧
     (∃ q ∈ p :: ps, (y_range p ps).1 = q.y) ∧
     (∀ q ∈ p :: ps, (y_range p ps).1 ≤ q.y) ∧
     (∃ q ∈ p :: ps, (y_range p ps).2 = q.y) ∧
     (∀ q ∈ p :: ps, q.y ≤ (y_range p ps).2) ∧
     (∃ q ∈ p :: ps, (z_range p ps).1 = q.z) ∧
     (∀ q ∈ p :: ps, (z_range p ps).1 ≤ q.z) ∧
     (∃ q ∈ p :: ps, (z_range p ps).2 = q.z) ∧
     (∀ q ∈ p :: ps, q.z ≤ (z_range p ps).2)) ∧
    (center p ps = (((x_range p ps).1 + (x_range p ps).2) / 2,
        ((y_range p ps).1 + (y_range p ps).2) / 2,
        ((z_range p ps).1 + (z_range p ps).2) / 2) ∧
     max_range p ps = max ((x_range p ps).2 - (x_range p ps).1)
        (max ((y_range p ps).2 - (y_range p ps).1)
          ((z_range p ps).2 - (z_range p ps).1)) ∧
     camera_dist p ps = max_range p ps * (5/2) ∧
     (create_gaussian_splatting_visualization rec point_size splat_scale).map
        SceneDescription.camera_eye
       = some (camera_dist p ps, camera_dist p ps, camera_dist p ps / 2) ∧
     (create_gaussian_splatting_visualization rec point_size splat_scale).map
        SceneDescription.camera_up = some (0, 0, 1) ∧
     (create_gaussian_splatting_visualization rec point_size splat_scale).map
        SceneDescription.camera_center = some (0, 0, 0)) ∧
    (center ⟨0, 0, 0⟩ cube_points.tail = (5, 5, 5) ∧
     max_range ⟨0, 0, 0⟩ cube_points.tail = 10 ∧
     camera_dist ⟨0, 0, 0⟩ cube_points.tail = 25 ∧
     (create_gaussian_splatting_visualization cube_record point_size splat_scale).map
        SceneDescription.camera_eye = some (25, 25, 25/2)) := by
  obtain ⟨hx1, hx2, hx3, hx4⟩ := range_spec Point3.x p ps
  obtain ⟨hy1, hy2, hy3, hy4⟩ := range_spec Point3.y p ps
  obtain ⟨hz1, hz2, hz3, hz4⟩ := range_spec Point3.z p ps
  refine ⟨⟨hx1, hx2, hx3, hx4, hy1, hy2, hy3, hy4, hz1, hz2, hz3, hz4⟩,
    ⟨rfl, rfl, rfl, ?_, ?_, ?_⟩, ?_, ?_, ?_, ?_⟩
  · simp [create_gaussian_splatting_visualization, h]
  · simp [create_gaussian_splatting_visualization, h]
  · simp [create_gaussian_splatting_visualization, h]
  · norm_num [center, x_range, y_range, z_range, cube_points]
  · norm_num [max_range, x_range, y_range, z_range, cube_points]
  · norm_num [camera_dist, max_range, x_range, y_range, z_range, cube_points]
  · norm_num [create_gaussian_splatting_visualization, cube_record, cube_points,
      camera_dist, max_range, x_range, y_range, z_range]

/-- Witness for C1: the cube scenario, extracting the concrete camera eye
(25, 25, 12.5). -/
theorem camera_framing_correct_witness :
    (create_gaussian_splatting_visualization cube_record 5 1).map
        SceneDescription.camera_eye = some (25, 25, 25/2) :=
  (camera_framing_correct cube_record 5 1 ⟨0, 0, 0⟩ cube_points.tail rfl).2.2.2.2.2

/-- C2: when the decoded cloud has no color channel, `load_ply_file` returns
one mid-gray (0.5, 0.5, 0.5) color per point. -/
theorem colors_default_gray (env : LoadEnv) (pc : PointCloud) (rec : PointCloudRecord)
    (hdec : env.decoded = Except.ok pc) (hnc : pc.colors = none)
    (hok : (load_ply_file env).1 = Except.ok rec) :
    rec.colors.length = rec.points.length ∧
      ∀ c ∈ rec.colors, c = ⟨1/2, 1/2, 1/2⟩ := by
  unfold load_ply_file at hok
  split at hok
  · simp at hok
  · rw [hdec] at hok
    simp only at hok
    have hrec : mkRecord pc = rec := by
      simpa using hok
    subst hrec
    constructor
    · simp [mkRecord, hnc]
    · intro c hc
      simp only [mkRecord, hnc] at hc
      have := List.eq_of_mem_replicate hc
      subst this
      norm_num

/-- Witness for C2: the one-point colorless cloud yields a single gray
entry. -/
theorem colors_default_gray_witness :
    (mkRecord gray_cloud).colors.length = (mkRecord gray_cloud).points.length ∧
      ∀ c ∈ (mkRecord gray_cloud).colors, c = ⟨1/2, 1/2, 1/2⟩ :=
  colors_default_gray gray_env gray_cloud (mkRecord gray_cloud) rfl rfl rfl

/-- C3: every record returned by `load_ply_file` has as many colors as
points, given the decoder contract that a present color channel carries one
triple per point. -/
theorem colors_length_eq_points_length (env : LoadEnv) (rec : PointCloudRecord)
    (hok : (load_ply_file env).1 = Except.ok rec)
    (hlen : ∀ pc cs, env.decoded = Except.ok pc → pc.colors = some cs →
      cs.length = pc.points.length) :
    rec.colors.length = rec.points.length := by
  unfold load_ply_file at hok
  split at hok
  · simp at hok
  · cases hd : env.decoded with
    | error e => rw [hd] at hok; simp at hok
    | ok pc =>
      rw [hd] at hok
      simp only at hok
      have hrec : mkRecord pc = rec := by
        simpa using hok
      subst hrec
      cases hc : pc.colors with
      | none => simp [mkRecord, hc]
      | some cs => simp [mkRecord, hc, hlen pc cs hd hc]

/-- Witness for C3: a decoded cloud with an explicit color channel. -/
theorem colors_length_eq_points_length_witness :
    (mkRecord color_cloud).colors.length = (mkRecord color_cloud).points.length :=
  colors_length_eq_points_length color_env (mkRecord color_cloud) rfl
    (by
      intro pc cs h1 h2
      simp only [color_env] at h1
      cases h1
      simp only [color_cloud] at h2
      cases h2
      rfl)

/-- C4: `splat_scale` is accepted by the builder but has no effect on the
produced scene. -/
theorem splat_scale_no_effect (data : PointCloudRecord) (point_size s1 s2 : ℚ) :
    create_gaussian_splatting_visualization data point_size s1 =
      create_gaussian_splatting_visualization data point_size s2 := rfl

/-- C5: for channels in [0,1] the color conversion truncates `c*255` toward
zero (which is its floor), stays in [0,255], and maps 0.999 to 254 and 1.0
to 255. -/
theorem channel_truncation (c : ℚ) (h0 : 0 ≤ c) (h1 : c ≤ 1) :
    channel_int c = ⌊c * 255⌋ ∧ 0 ≤ channel_int c ∧ channel_int c ≤ 255 ∧
      channel_int (999/1000) = 254 ∧ channel_int 1 = 255 := by
  have hm : (0:ℚ) ≤ c * 255 := by positivity
  have heq : channel_int c = ⌊c * 255⌋ := by
    simp [channel_int, py_int, hm]
  refine ⟨heq, ?_, ?_, ?_, ?_⟩
  · rw [heq]
    exact Int.floor_nonneg.mpr hm
  · rw [heq]
    have hle : c * 255 ≤ 255 := by nlinarith
    calc ⌊c * 255⌋ ≤ ⌊(255:ℚ)⌋ := Int.floor_le_floor hle
    _ = 255 := by norm_num
  · norm_num [channel_int, py_int]
  · norm_num [channel_int, py_int]

/-- Witness for C5: the channel 1/2 maps to 127. -/
theorem channel_truncation_witness :
    channel_int (1/2) = ⌊(1/2 : ℚ) * 255⌋ ∧ 0 ≤ channel_int (1/2) ∧
      channel_int (1/2) ≤ 255 ∧ channel_int (999/1000) = 254 ∧
      channel_int 1 = 255 :=
  channel_truncation (1/2) (by norm_num) (by norm_num)

/-- C6 counterexample: when `tmp_file.write(file_bytes)` raises, the write
happens before the `try`, so the `finally: os.unlink` never runs and the
temporary file survives the propagating exception. -/
theorem temp_file_left_on_write_failure :
    (load_ply_file write_fail_env).1 = Except.error LoadError.writeError ∧
      ¬((load_ply_file write_fail_env).2 = false) :=
  ⟨rfl, by simp [load_ply_file, write_fail_env]⟩

/-- C6 amended: once the write of the input bytes has succeeded, the
temporary file is deleted on every exit path (decode success or decode
failure). -/
theorem temp_file_cleanup_after_write (env : LoadEnv)
    (h : env.writeRaises = false) :
    (load_ply_file env).2 = false := by
  rcases env with ⟨w, d⟩
  cases w
  · cases d <;> rfl
  · simp at h

/-- Witness for the amended C6: a failing decode still deletes the file. -/
theorem temp_file_cleanup_after_write_witness :
    (load_ply_file decode_fail_env).2 = false :=
  temp_file_cleanup_after_write decode_fail_env rfl

/-- C7: on the empty point cloud the builder fails (numpy min over an empty
axis raises) instead of producing a scene. -/
theorem empty_cloud_build_fails (rec : PointCloudRecord)
    (point_size splat_scale : ℚ) (h : rec.points = []) :
    create_gaussian_splatting_visualization rec point_size splat_scale = none := by
  simp [create_gaussian_splatting_visualization, h]

/-- Witness for C7: the concrete empty record. -/
theorem empty_cloud_build_fails_witness :
    create_gaussian_splatting_visualization empty_record 5 1 = none :=
  empty_cloud_build_fails empty_record 5 1 rfl

/-- C8: a single-point cloud raises no error: all spans are 0, so
`max_range = 0`, `camera_dist = 0` and the camera eye collapses onto the
origin; the point (2,3,4) with no colors yields colors [(0.5,0.5,0.5)] and
eye (0,0,0). -/
theorem single_point_degenerate (rec : PointCloudRecord)
    (point_size splat_scale : ℚ) (p : Point3) (h : rec.points = [p]) :
    max_range p [] = 0 ∧ camera_dist p [] = 0 ∧
    (create_gaussian_splatting_visualization rec point_size splat_scale).isSome
      = true ∧
    (create_gaussian_splatting_visualization rec point_size splat_scale).map
        SceneDescription.camera_eye = some (0, 0, 0) ∧
    (mkRecord gray_cloud).colors = [⟨1/2, 1/2, 1/2⟩] ∧
    (create_gaussian_splatting_visualization (mkRecord gray_cloud) point_size
        splat_scale).map SceneDescription.camera_eye = some (0, 0, 0) := by
  have hcd : camera_dist p [] = 0 := by
    simp [camera_dist, max_range, x_range, y_range, z_range]
  have hg : camera_dist ⟨2, 3, 4⟩ [] = 0 := by
    simp [camera_dist, max_range, x_range, y_range, z_range]
  refine ⟨?_, hcd, ?_, ?_, ?_, ?_⟩
  · simp [max_range, x_range, y_range, z_range]
  · simp [create_gaussian_splatting_visualization, h]
  · simp [create_gaussian_splatting_visualization, h, hcd]
  · norm_num [mkRecord, gray_cloud]
  · simp [create_gaussian_splatting_visualization, mkRecord, gray_cloud, hg]

/-- Witness for C8: the cloud with the single point (2,3,4). -/
theorem single_point_degenerate_witness :
    (create_gaussian_splatting_visualization (mkRecord gray_cloud) 5 1).map
        SceneDescription.camera_eye = some (0, 0, 0) :=
  (single_point_degenerate (mkRecord gray_cloud) 5 1 ⟨2, 3, 4⟩ rfl).2.2.2.2.2

/-- C9 counterexample: the builder hard-codes marker opacity 0.8 (line 86),
so the emitted markers are not fully opaque. -/
theorem full_opacity_counterexample :
    (create_gaussian_splatting_visualization one_point_record 5 1).map
        SceneDescription.marker_opacity = some (8/10) ∧ (8/10 : ℚ) ≠ 1 := by
  constructor
  · simp [create_gaussian_splatting_visualization, one_point_record]
  · norm_num

/-- C9 amended: for every non-empty input the builder emits markers with the
fixed opacity 0.8 (partially transparent), independent of the input. -/
theorem marker_opacity_fixed (rec : PointCloudRecord)
    (point_size splat_scale : ℚ) (h : rec.points ≠ []) :
    (create_gaussian_splatting_visualization rec point_size splat_scale).map
        SceneDescription.marker_opacity = some (8/10) := by
  cases hp : rec.points with
  | nil => exact absurd hp h
  | cons p ps => simp [create_gaussian_splatting_visualization, hp]

/-- Witness for the amended C9. -/
theorem marker_opacity_fixed_witness :
    (create_gaussian_splatting_visualization one_point_record 5 1).map
        SceneDescription.marker_opacity = some (8/10) :=
  marker_opacity_fixed one_point_record 5 1 (by simp [one_point_record])

/-- C10: the builder's output depends only on the record's points and
colors; normals and the retained handle are never read. -/
theorem build_depends_only_on_points_colors (r1 r2 : PointCloudRecord)
    (hp : r1.points = r2.points) (hc : r1.colors = r2.colors)
    (point_size splat_scale : ℚ) :
    create_gaussian_splatting_visualization r1 point_size splat_scale =
      create_gaussian_splatting_visualization r2 point_size splat_scale := by
  cases r1
  cases r2
  simp only at hp hc
  subst hp
  subst hc
  rfl

/-- Witness for C10: records agreeing on points and colors but differing in
normals and handle produce the same scene. -/
theorem build_depends_only_on_points_colors_witness :
    create_gaussian_splatting_visualization record_a 5 1 =
      create_gaussian_splatting_visualization record_b 5 1 :=
  build_depends_only_on_points_colors record_a record_b rfl rfl 5 1

end GaussianSplat
